import Mathlib

/-!
Verification of the telegram-bot-constructor dispatch engine.

Shallow embedding of `src/tbc/constructor.py` (class `Constructor`:
registry building via `add_state` / `add_transition`, the dispatch
handler `__handler`) and `src/tbc/db_adapter.py` (class `DbAdapter`:
`get_user`, `commit_user`, and the `User` record).

The `DbAdapter` methods are embedded with their actual error behaviour:
both `get_user` and `commit_user` open with `with self.Session() as
session:`, but `DbAdapter.__init__` only ever defines the lowercase
`self.session`, so every call raises AttributeError before touching the
database; the embeddings return that error and the handler propagates it.

The state-machine runtime used by the handler comes from the external
`transitions` library, whose code is not part of this repository; its
operations (`get_triggers`, firing a trigger) are modelled from the
spec, section 4.3.  Regular-expression matching (`re.match`) is
abstracted as a parameter `matchAt : String → String → Bool`, read as
"the pattern matches at the beginning of the signal".
-/

set_option autoImplicit false

namespace TBC

/-- The reserved sentinel names of `Constructor` (constructor.py lines 22-26). -/
def START_STATE_NAME : String := "__start__"

/-- Reserved free-text fallback trigger (constructor.py line 23). -/
def FREE_TEXT_TRIGGER : String := "__free_text__"

/-- Reserved photo trigger (constructor.py line 24). -/
def PHOTO_TRIGGER : String := "__photo_trigger__"

/-- Reserved location trigger (constructor.py line 25). -/
def LOCATION_TRIGGER : String := "__location_trigger__"

/-- Reserved pass-through trigger (constructor.py line 26). -/
def PASSING_TRIGGER : String := "__passing_trigger__"

/-- The user metadata carried by a telegram update (`update.effective_user`):
the fields `DbAdapter.get_user` reads from it. -/
structure EffUser where
  id : Nat
  first_name : Option String
  last_name : Option String
  name : Option String
  username : Option String
  deriving Repr, DecidableEq

/-- The persisted user record (`db_adapter.py`, class `User`): current state
name plus profile fields.  `state` is `Option String` because the column is
nullable. -/
structure UserRecord where
  id : Nat
  state : Option String
  first_name : Option String
  last_name : Option String
  name : Option String
  username : Option String
  created_at : Nat
  deriving Repr, DecidableEq

/-- The database of user records, keyed by user id (one row per id). -/
abbrev Db := List (Nat × UserRecord)

/-- The failure a `DbAdapter` call raises.  `attributeError attr` stands for
Python's AttributeError on reading the missing attribute `attr`. -/
inductive DbError where
  | attributeError (attr : String)
  deriving Repr, DecidableEq

/-- `DbAdapter.get_user` (db_adapter.py lines 59-80).  After reading
`eff_user.id`, the method's next statement `with self.Session() as session:`
reads the attribute `Session`, which `DbAdapter.__init__` (lines 44-57)
never defines — it sets the lowercase `self.session` — so every call raises
AttributeError before any query runs.  The lookup-or-create logic of lines
68-79 is unreachable dead code; its create branch would itself raise
TypeError at line 70, because `self.user_class()` passes none of the six
required positional arguments of `User.__init__` (lines 25-32). -/
def get_user (_db : Db) (_eff : EffUser) (_now : Nat) : Except DbError UserRecord :=
  Except.error (DbError.attributeError "Session")

/-- `DbAdapter.commit_user` (db_adapter.py lines 82-92): its first statement
`with self.Session() as session:` raises AttributeError on the undefined
attribute `Session` (see `get_user`), so no call ever writes a record to the
database. -/
def commit_user (_db : Db) (_u : UserRecord) : Except DbError Db :=
  Except.error (DbError.attributeError "Session")

/-- Python truthiness of the `state` field: `None` and the empty string are
falsy (constructor.py line 62 tests `not self.user.state`). -/
def stateFalsy : Option String → Bool
  | none => true
  | some s => s.isEmpty

/-- Constructor.__handler line 62: replace a falsy persisted state by the
start-state sentinel before binding the machine. -/
def normalizeUser (u : UserRecord) : UserRecord :=
  if stateFalsy u.state then { u with state := some START_STATE_NAME } else u

/-- A state descriptor as registered by `Constructor.add_state`
(constructor.py lines 126-133): the keyword arguments passed to
`transitions.State`.  Callbacks are opaque names. -/
structure StateDescr where
  name : String
  on_enter : Option (List String)
  on_exit : Option (List String)
  deriving Repr, DecidableEq

/-- A transition descriptor as registered by `Constructor.add_transition`
(constructor.py lines 135-143): the keyword-argument dictionary appended to
`self.transitions`.  Condition and unless guards are modelled by their
evaluated truth values; the other callbacks are opaque names. -/
structure TransitionDescr where
  trigger : String
  source : String
  dest : String
  conditions : Option (List Bool)
  unlessG : Option (List Bool)
  before : Option (List String)
  after : Option (List String)
  prepare : Option (List String)
  deriving Repr, DecidableEq

/-- The registry lists `Constructor.states` and `Constructor.transitions`
(constructor.py lines 42-43). -/
structure Registry where
  states : List StateDescr
  transitions : List TransitionDescr
  deriving Repr, DecidableEq

/-- `Constructor.add_state` (constructor.py lines 126-133): append one state
descriptor built from the arguments; nothing else. -/
def add_state (reg : Registry) (name : String) (on_enter on_exit : Option (List String)) :
    Registry :=
  { reg with states := reg.states ++ [{ name := name, on_enter := on_enter, on_exit := on_exit }] }

/-- `Constructor.add_transition` (constructor.py lines 135-143): append one
transition descriptor built from the arguments; nothing else. -/
def add_transition (reg : Registry) (trigger source dest : String)
    (conditions unlessG : Option (List Bool))
    (before after prepare : Option (List String)) : Registry :=
  { reg with
      transitions := reg.transitions ++
        [{ trigger := trigger, source := source, dest := dest,
           conditions := conditions, unlessG := unlessG,
           before := before, after := after, prepare := prepare }] }

/-- Modelled from the spec: the State Machine Runtime (section 4.3).  The
`transitions.Machine` class is an external library, absent from this
repository's sources; we keep its declared states and transitions together
with the model's current state (`self.state`). -/
structure Machine where
  states : List StateDescr
  transitions : List TransitionDescr
  current : String
  deriving Repr, DecidableEq

/-- Modelled from the spec: `Machine.get_triggers(state)` enumerates the
trigger patterns of the transitions outgoing from the given state
(section 4.2, "enumerate all trigger patterns outgoing from that state"). -/
def get_triggers (m : Machine) (st : String) : List String :=
  List.map (fun t => t.trigger) (List.filter (fun t => t.source == st) m.transitions)

/-- Modelled from the spec: a transition's guards pass when all `conditions`
hold and no `unless` guard holds (section 4.3). -/
def guardsPass (t : TransitionDescr) : Bool :=
  (List.all (t.conditions.getD []) (fun b => b)) &&
  (List.all (t.unlessG.getD []) (fun b => !b))

/-- Modelled from the spec: firing a trigger on the machine (section 4.3) —
among transitions matching `(trigger, current_state)` take the first whose
guards pass and switch the current state to its destination; if none passes,
no state change occurs. -/
def fire (m : Machine) (trig : String) : Machine :=
  match List.find? (fun t => t.source == m.current && t.trigger == trig && guardsPass t)
      m.transitions with
  | some t => { m with current := t.dest }
  | none => m

/-- The dispatch-visible fields of the `Constructor` object together with the
database: the lazily built machine (`self.machine`), the registry, the user
database behind `self.db_adapter`, the trace of successful `commit_user`
writes (oldest first), and the clock used for `created_at`. -/
structure Sys where
  registry : Registry
  machine : Option Machine
  db : Db
  commits : List UserRecord
  now : Nat

/-- Constructor.__handler lines 64-72: rebind the existing machine's current
state to the user's state, or lazily construct the machine from the registry
with that initial state. -/
def bindMachine (s : Sys) (u : UserRecord) : Machine :=
  match s.machine with
  | some m0 => { m0 with current := u.state.getD "" }
  | none =>
      { states := s.registry.states
        transitions := s.registry.transitions
        current := u.state.getD "" }

/-- Constructor.__handler lines 75-78: the loop collecting every possible
trigger whose pattern matches the raw signal (`re.match(possible, trigger)`),
appending matches in order. -/
def matchedTriggers (matchAt : String → String → Bool) (signal : String)
    (triggers : List String) : List String :=
  List.foldl (fun acc p => if matchAt p signal then acc ++ [p] else acc) [] triggers

/-- The failure modes of a dispatch: the AttributeError propagating out of
the `DbAdapter` calls (constructor.py line 59 / line 93), the ambiguity
error raised at constructor.py lines 84-88 (the spec's
AmbiguousTriggerError, a `ValueError` naming the raw signal and all matched
triggers), and exhaustion of the fuel bounding the pass-through recursion. -/
inductive DispatchError where
  | dbError (e : DbError)
  | ambiguous (signal : String) (matched : List String)
  | fuelOut
  deriving Repr, DecidableEq

/-- Constructor.__handler lines 80-88: zero matches resolve to the free-text
sentinel, exactly one match resolves to that pattern, two or more raise. -/
def resolveTrigger (matched : List String) (signal : String) :
    Except DispatchError String :=
  match matched with
  | [] => Except.ok FREE_TEXT_TRIGGER
  | [p] => Except.ok p
  | _ => Except.error (DispatchError.ambiguous signal matched)

/-- Constructor.__handler (constructor.py lines 48-96): load the user (this
raises AttributeError on every call, see `get_user`, aborting the dispatch at
line 59), default a falsy state to the start sentinel, bind the machine,
resolve the trigger by matching the raw signal against the outgoing
patterns, fire it, write the machine's current state into the record, commit
it (`commit_user` likewise raises), and recurse with the pass-through
sentinel when the reached state has a pass-through transition.  The
recursion is bounded by `fuel`; exceptions propagate as `Except.error`. -/
def handler (matchAt : String → String → Bool) :
    Nat → Sys → EffUser → String → Except DispatchError Sys
  | 0, _, _, _ => Except.error DispatchError.fuelOut
  | fuel + 1, s, eff, signal =>
      match get_user s.db eff s.now with
      | Except.error e => Except.error (DispatchError.dbError e)
      | Except.ok user0 =>
          let user := normalizeUser user0
          let m := bindMachine s user
          let matched := matchedTriggers matchAt signal (get_triggers m m.current)
          match resolveTrigger matched signal with
          | Except.error e => Except.error e
          | Except.ok trig =>
              let m' := fire m trig
              let user' := { user with state := some m'.current }
              match commit_user s.db user' with
              | Except.error e => Except.error (DispatchError.dbError e)
              | Except.ok db' =>
                  let s' : Sys :=
                    { s with
                        db := db'
                        machine := some m'
                        commits := s.commits ++ [user'] }
                  if PASSING_TRIGGER ∈ get_triggers m' m'.current then
                    handler matchAt fuel s' eff PASSING_TRIGGER
                  else
                    Except.ok s'

/-- Modelled from the spec: `re.match` with a pattern containing no
metacharacters is prefix-anchored literal matching — the pattern matches
exactly when it is a prefix of the signal.  Used to instantiate the abstract
`matchAt` parameter on concrete inputs. -/
def reMatchLit (pat signal : String) : Bool :=
  List.isPrefixOf pat.data signal.data

/-! ### Concrete scenarios used to instantiate the theorems -/

/-- A concrete effective user. -/
def effAda : EffUser :=
  { id := 7, first_name := some "Ada", last_name := some "Lovelace",
    name := some "Ada Lovelace", username := some "ada" }

/-- A transition on pattern "hel" out of state "S" (overlaps with `tHell`). -/
def tHel : TransitionDescr :=
  { trigger := "hel", source := "S", dest := "T1", conditions := none, unlessG := none,
    before := none, after := none, prepare := none }

/-- A transition on pattern "hell" out of state "S" (overlaps with `tHel`). -/
def tHell : TransitionDescr :=
  { trigger := "hell", source := "S", dest := "T2", conditions := none, unlessG := none,
    before := none, after := none, prepare := none }

/-- A transition on the literal "go" from "S" to "T". -/
def tGo : TransitionDescr :=
  { trigger := "go", source := "S", dest := "T", conditions := none, unlessG := none,
    before := none, after := none, prepare := none }

/-- A pass-through transition from "A" to "B". -/
def tAB : TransitionDescr :=
  { trigger := PASSING_TRIGGER, source := "A", dest := "B", conditions := none,
    unlessG := none, before := none, after := none, prepare := none }

/-- A pass-through transition from "B" to "C". -/
def tBC : TransitionDescr :=
  { trigger := PASSING_TRIGGER, source := "B", dest := "C", conditions := none,
    unlessG := none, before := none, after := none, prepare := none }

/-- `effAda`'s persisted record sitting in state "S". -/
def uS : UserRecord :=
  { id := 7, state := some "S", first_name := some "Ada", last_name := some "Lovelace",
    name := some "Ada Lovelace", username := some "ada", created_at := 5 }

/-- `effAda`'s persisted record sitting in state "T". -/
def uT : UserRecord :=
  { id := 7, state := some "T", first_name := some "Ada", last_name := some "Lovelace",
    name := some "Ada Lovelace", username := some "ada", created_at := 5 }

/-- `effAda`'s persisted record sitting in state "A". -/
def uA : UserRecord :=
  { id := 7, state := some "A", first_name := some "Ada", last_name := some "Lovelace",
    name := some "Ada Lovelace", username := some "ada", created_at := 5 }

/-- A system whose registry has the two overlapping transitions out of "S",
with `uS` stored. -/
def sysAmb : Sys :=
  { registry := { states := [], transitions := [tHel, tHell] }, machine := none,
    db := [(7, uS)], commits := [], now := 50 }

/-- A system whose registry has only `tGo`, with `uS` stored. -/
def sysGo : Sys :=
  { registry := { states := [], transitions := [tGo] }, machine := none,
    db := [(7, uS)], commits := [], now := 50 }

/-- A system whose registry has only `tGo`, with the user stored in state "T"
(which has no outgoing transition at all). -/
def sysT : Sys :=
  { registry := { states := [], transitions := [tGo] }, machine := none,
    db := [(7, uT)], commits := [], now := 50 }

/-- A system with the pass-through chain A → B → C and the user stored in
state "A". -/
def sysABC : Sys :=
  { registry := { states := [], transitions := [tAB, tBC] }, machine := none,
    db := [(7, uA)], commits := [], now := 50 }

/-! ### Helper lemmas -/

theorem matchedTriggers_foldl (matchAt : String → String → Bool) (signal : String)
    (l acc : List String) :
    List.foldl (fun acc p => if matchAt p signal then acc ++ [p] else acc) acc l =
      acc ++ List.filter (fun p => matchAt p signal) l := by
  induction l generalizing acc with
  | nil => simp
  | cons h t ih =>
      rw [List.foldl_cons, List.filter_cons]
      cases hh : matchAt h signal with
      | true => simp [hh, ih]
      | false => simp [hh, ih]

/-- The match-collecting loop of the handler computes the filter of the
outgoing triggers by the matching predicate, in order. -/
theorem matchedTriggers_eq_filter (matchAt : String → String → Bool) (signal : String)
    (l : List String) :
    matchedTriggers matchAt signal l = List.filter (fun p => matchAt p signal) l := by
  rw [matchedTriggers, matchedTriggers_foldl]
  simp

theorem bindMachine_current (s : Sys) (u : UserRecord) (st : String)
    (h : u.state = some st) : (bindMachine s u).current = st := by
  rw [bindMachine]
  cases s.machine <;> simp [h]

/-! ### The claims -/

/-- C1 (code bug): on a configuration where the raw signal "hello" matches
the two patterns "hel" and "hell" outgoing from the user's current state,
the dispatch does not raise the claimed ambiguity error — it fails with the
AttributeError raised inside `get_user` (db_adapter.py line 67, `self.Session`
undefined), called at constructor.py line 59 before the matching loop ever
runs. -/
theorem claim1_dispatch_crashes_before_ambiguity :
    2 ≤ (matchedTriggers reMatchLit "hello"
        (get_triggers (bindMachine sysAmb uS) (bindMachine sysAmb uS).current)).length ∧
    handler reMatchLit 1 sysAmb effAda "hello" =
      Except.error (DispatchError.dbError (DbError.attributeError "Session")) :=
  ⟨by decide, rfl⟩

/-- C2 (code bug): on a configuration where the signal "go" matches exactly
the one transition from "S" to "T", the dispatch does not fire it — it fails
with the AttributeError raised inside `get_user` (db_adapter.py line 67),
before any matching or firing. -/
theorem claim2_dispatch_crashes_before_firing :
    matchedTriggers reMatchLit "go"
        (get_triggers (bindMachine sysGo uS) (bindMachine sysGo uS).current) = ["go"] ∧
    handler reMatchLit 1 sysGo effAda "go" =
      Except.error (DispatchError.dbError (DbError.attributeError "Session")) :=
  ⟨by decide, rfl⟩

/-- C3 (code bug): on a zero-match dispatch (state "T" has no outgoing
transitions at all, so "whatever" matches nothing and there is no free-text
transition), the dispatch does not complete and rewrite the unchanged state —
it fails with the AttributeError raised inside `get_user` (db_adapter.py
line 67) before trigger resolution. -/
theorem claim3_dispatch_crashes_before_absorption :
    matchedTriggers reMatchLit "whatever"
        (get_triggers (bindMachine sysT uT) (bindMachine sysT uT).current) = [] ∧
    handler reMatchLit 1 sysT effAda "whatever" =
      Except.error (DispatchError.dbError (DbError.attributeError "Session")) :=
  ⟨by decide, rfl⟩

/-- C4: the matched-trigger set collected by the handler's matching loop is
exactly the set of patterns outgoing from the inspected state that match the
raw signal under the (prefix-anchored) matching predicate. -/
theorem claim4_matched_set_characterization (matchAt : String → String → Bool)
    (signal : String) (m : Machine) (st p : String) :
    p ∈ matchedTriggers matchAt signal (get_triggers m st) ↔
      (∃ t ∈ m.transitions, t.source = st ∧ t.trigger = p) ∧ matchAt p signal = true := by
  rw [matchedTriggers_eq_filter, List.mem_filter, get_triggers]
  constructor
  · rintro ⟨hmem, hmatch⟩
    refine ⟨?_, hmatch⟩
    rcases List.mem_map.mp hmem with ⟨t, ht, rfl⟩
    rcases List.mem_filter.mp ht with ⟨htl, hsrc⟩
    exact ⟨t, htl, by simpa using hsrc, rfl⟩
  · rintro ⟨⟨t, htl, hsrc, htr⟩, hmatch⟩
    refine ⟨?_, hmatch⟩
    exact List.mem_map.mpr ⟨t, List.mem_filter.mpr ⟨htl, by simp [hsrc]⟩, htr⟩

/-- C5 (code bug): the program never persists anything — `commit_user`
raises AttributeError (db_adapter.py line 89, `self.Session` undefined) on
every call, and every dispatch already fails in `get_user` at constructor.py
line 59, so no record is ever written, let alone exactly once per hop. -/
theorem claim5_no_commit_ever :
    (∀ (db : Db) (u : UserRecord),
      commit_user db u = Except.error (DbError.attributeError "Session")) ∧
    (∀ (matchAt : String → String → Bool) (fuel : Nat) (s : Sys) (eff : EffUser)
        (signal : String),
      handler matchAt (fuel + 1) s eff signal =
        Except.error (DispatchError.dbError (DbError.attributeError "Session"))) :=
  ⟨fun _ _ => rfl, fun _ _ _ _ _ => rfl⟩

/-- C6 (code bug): with the pass-through chain A → B → C registered and the
user stored in state "A" — the state whose only outgoing trigger is the
pass-through sentinel — the inbound event does not drive the user to "C":
the dispatch fails with the AttributeError raised inside `get_user`
(db_adapter.py line 67) at constructor.py line 59, so the chain never
starts. -/
theorem claim6_chain_never_starts :
    get_triggers (bindMachine sysABC uA) (bindMachine sysABC uA).current =
        [PASSING_TRIGGER] ∧
    handler reMatchLit 3 sysABC effAda "hello" =
      Except.error (DispatchError.dbError (DbError.attributeError "Session")) :=
  ⟨by decide, rfl⟩

/-- C7 (code bug): `get_user` never creates or returns any record — for
every database, effective user and timestamp it raises AttributeError
(db_adapter.py line 67, `self.Session` undefined); even past that line, the
new-user branch would raise TypeError at line 70 (`self.user_class()` omits
all six required arguments of `User.__init__`) before copying any profile
field. -/
theorem claim7_get_user_always_raises :
    ∀ (db : Db) (eff : EffUser) (now : Nat),
      get_user db eff now = Except.error (DbError.attributeError "Session") :=
  fun _ _ _ => rfl

/-- C8: `add_state` and `add_transition` validate nothing and never fail:
each appends exactly one descriptor built from its arguments to the
corresponding registry list and leaves the other list untouched — including
when the transition's source or destination state was never declared (no
hypothesis below relates `source` or `dest` to `reg.states`). -/
theorem claim8_registration_appends_one (reg : Registry) (name : String)
    (on_enter on_exit : Option (List String)) (trigger source dest : String)
    (conditions unlessG : Option (List Bool))
    (before after prepare : Option (List String)) :
    (add_state reg name on_enter on_exit).states =
        reg.states ++ [{ name := name, on_enter := on_enter, on_exit := on_exit }] ∧
    (add_state reg name on_enter on_exit).transitions = reg.transitions ∧
    (add_transition reg trigger source dest conditions unlessG before after
        prepare).transitions =
      reg.transitions ++
        [{ trigger := trigger, source := source, dest := dest,
           conditions := conditions, unlessG := unlessG, before := before,
           after := after, prepare := prepare }] ∧
    (add_transition reg trigger source dest conditions unlessG before after
        prepare).states = reg.states :=
  ⟨rfl, rfl, rfl, rfl⟩

/-- C9: before the machine is bound, a falsy persisted state (`None` or the
empty string) is replaced by the start-state sentinel, a non-falsy state is
kept as is, and the machine is consequently never bound to an empty state
name. -/
theorem claim9_falsy_state_normalized (s : Sys) (u : UserRecord) :
    (stateFalsy u.state = true →
        (bindMachine s (normalizeUser u)).current = START_STATE_NAME) ∧
    (stateFalsy u.state = false →
        (bindMachine s (normalizeUser u)).current = u.state.getD "") ∧
    (bindMachine s (normalizeUser u)).current ≠ "" := by
  by_cases hf : stateFalsy u.state = true
  · have hnorm : normalizeUser u = { u with state := some START_STATE_NAME } := by
      rw [normalizeUser, if_pos hf]
    have hcur : (bindMachine s (normalizeUser u)).current = START_STATE_NAME := by
      rw [hnorm]
      exact bindMachine_current s _ _ rfl
    refine ⟨fun _ => hcur, fun hc => absurd hf (by simp [hc]), ?_⟩
    rw [hcur]
    decide
  · have hf' : stateFalsy u.state = false := by
      cases hfa : stateFalsy u.state
      · rfl
      · exact absurd hfa hf
    have hnorm : normalizeUser u = u := by rw [normalizeUser, hf']; simp
    rcases hst : u.state with _ | st
    · rw [hst] at hf'
      exact absurd hf' (by decide)
    · rw [hst] at hf'
      have hne : st ≠ "" := by
        intro he
        rw [he] at hf'
        exact absurd hf' (by decide)
      have hcur : (bindMachine s (normalizeUser u)).current = st := by
        rw [hnorm]
        exact bindMachine_current s u st hst
      exact ⟨fun ht => absurd ht (by simp [hf']),
        fun _ => by rw [hcur]; rfl, by rw [hcur]; exact hne⟩

/-- Witness for C9: a stored record with the empty-string state is bound at
the start-state sentinel. -/
theorem claim9_witness :
    (bindMachine sysGo
        (normalizeUser
          { id := 7, state := some "", first_name := none, last_name := none,
            name := none, username := none, created_at := 5 })).current =
      START_STATE_NAME :=
  (claim9_falsy_state_normalized sysGo
    { id := 7, state := some "", first_name := none, last_name := none,
      name := none, username := none, created_at := 5 }).1 rfl

/-- C10 (code bug): no intermediate hop of a pass-through chain is ever
committed — `commit_user` raises AttributeError on every call (db_adapter.py
line 89), and the dispatch on the A → B → C chain already fails inside
`get_user` at constructor.py line 59 before the first hop completes. -/
theorem claim10_no_intermediate_commit :
    commit_user sysABC.db uA = Except.error (DbError.attributeError "Session") ∧
    handler reMatchLit 2 sysABC effAda "hello" =
      Except.error (DispatchError.dbError (DbError.attributeError "Session")) :=
  ⟨rfl, rfl⟩

end TBC
